import Mathlib

/-!
Verification of the SecLyzer behavioral-authentication pipeline.

Shallow embedding of the Python sources:
* `processing/decision/decision_engine.py` (`AuthState`, `DecisionEngine`)
* `processing/inference/inference_engine.py` (`InferenceEngine`)
* `processing/actions/locking_engine.py` (`LockingEngine`)
* `processing/extractors/keystroke_extractor.py` (`KeystrokeExtractor`)
* `processing/extractors/mouse_extractor.py` (`MouseExtractor`)

Floats are modelled as rationals (`ℚ`).  Transcendental library calls
(`sqrt`, `exp`, `log10`, `arctan2`) are passed in as explicit function
parameters: the embedded code is polymorphic in them, and no theorem below
depends on their values.  Redis publications, state-change callbacks and
database writes are modelled as explicit output lists.
-/

namespace SecLyzer

/-- Python's `<` on strings, lexicographic by code point
(used because `DecisionEngine.process_score` compares `AuthState.value`
strings with `<` / `>`). -/
def strLtList : List Char → List Char → Bool
  | [], [] => false
  | [], _ :: _ => true
  | _ :: _, [] => false
  | a :: as, b :: bs =>
    if a.toNat < b.toNat then true
    else if b.toNat < a.toNat then false
    else strLtList as bs

/-- Python string comparison `a < b`. -/
def strLt (a b : String) : Bool := strLtList a.data b.data

/-- `collections.deque(maxlen := m)` append: add on the right, evict from
the left once the length exceeds `m`. -/
def dequeAppend (m : ℕ) (l : List α) (a : α) : List α :=
  if (l ++ [a]).length ≤ m then l ++ [a]
  else (l ++ [a]).drop ((l ++ [a]).length - m)

/-! ## `decision_engine.py` -/

/-- `AuthState` enum. -/
inductive AuthState where
  | NORMAL
  | MONITORING
  | RESTRICTED
  | LOCKDOWN
deriving DecidableEq, Repr

/-- `AuthState.value` — the string payload of each enum member. -/
def AuthState.value : AuthState → String
  | .NORMAL => "normal"
  | .MONITORING => "monitoring"
  | .RESTRICTED => "restricted"
  | .LOCKDOWN => "lockdown"

/-- Modelled from the spec: the trust order on states,
NORMAL > MONITORING > RESTRICTED > LOCKDOWN (higher rank = more trust).
The code itself never defines this order; the spec's transition rule is
stated in terms of it. -/
def trustRank : AuthState → ℕ
  | .LOCKDOWN => 0
  | .RESTRICTED => 1
  | .MONITORING => 2
  | .NORMAL => 3

/-- Observable effects of `DecisionEngine` methods: state-change callback
invocations, Redis `seclyzer:state_change` publications, and database
audit writes. -/
inductive DOutput where
  | callbackCall (old new : AuthState) (score : ℚ)
  | publishStateChange (old new : AuthState) (score : ℚ)
  | dbDecision (state : String) (score : ℚ)
  | dbOverride (state : String) (reason : String)
deriving DecidableEq, Repr

def DOutput.isPublish : DOutput → Bool
  | .publishStateChange _ _ _ => true
  | _ => false

def DOutput.isCallback : DOutput → Bool
  | .callbackCall _ _ _ => true
  | _ => false

/-- `DecisionEngine` mutable state.  `n_callbacks` is the number of
registered state-change callbacks; `hasDb` is whether the audit database
was available at construction. -/
structure DecisionEngine where
  normal_threshold : ℚ
  monitoring_threshold : ℚ
  restricted_threshold : ℚ
  lockdown_threshold : ℚ
  confirmation_count : ℕ
  current_state : AuthState
  previous_state : AuthState
  score_history : List ℚ
  low_score_count : ℕ
  n_callbacks : ℕ
  hasDb : Bool
deriving DecidableEq, Repr

/-- `DecisionEngine.determine_state`. -/
def DecisionEngine.determine_state (e : DecisionEngine) (score : ℚ) : AuthState :=
  if e.normal_threshold ≤ score then .NORMAL
  else if e.monitoring_threshold ≤ score then .MONITORING
  else if e.restricted_threshold ≤ score then .RESTRICTED
  else .LOCKDOWN

/-- `DecisionEngine._get_action_for_state`. -/
def getActionForState : AuthState → String
  | .NORMAL => "allow"
  | .MONITORING => "allow_log"
  | .RESTRICTED => "restrict"
  | .LOCKDOWN => "lockdown"

/-- Abstraction of Python's one-decimal float formatting `f"{score:.1f}"`
(the exact digits are irrelevant to every claim below). -/
def fmtScore (q : ℚ) : String := toString q

/-- `DecisionEngine._get_reason`. -/
def getReason (state : AuthState) (score : ℚ) : String :=
  match state with
  | .NORMAL => "High confidence (" ++ fmtScore score ++ "%) - normal operation"
  | .MONITORING => "Medium confidence (" ++ fmtScore score ++ "%) - monitoring active"
  | .RESTRICTED => "Low confidence (" ++ fmtScore score ++ "%) - restricted access"
  | .LOCKDOWN => "Very low confidence (" ++ fmtScore score ++ "%) - lockdown initiated"

/-- The decision dictionary returned by `process_score`.  The developer-mode
early return carries no `low_score_count` / `confirmation_needed` keys, hence
the `Option` fields. -/
structure Decision where
  action : String
  state : String
  score : ℚ
  reason : String
  dev_mode : Bool
  low_score_count : Option ℕ
  confirmation_needed : Option ℕ
deriving DecidableEq, Repr

/-- `DecisionEngine._on_state_change`: each registered callback is invoked
(exceptions swallowed), then the state change is published to Redis. -/
def onStateChange (n : ℕ) (old new : AuthState) (score : ℚ) : List DOutput :=
  List.replicate n (.callbackCall old new score) ++ [.publishStateChange old new score]

/-- `DecisionEngine.process_score`.  `dev_mode` is the argument;
`devActive` models `self.dev_mode and self.dev_mode.is_active()`.
Returns the decision dictionary, the updated engine and the emitted
effects. -/
def DecisionEngine.process_score (e : DecisionEngine) (score : ℚ)
    (dev_mode devActive : Bool) : Decision × DecisionEngine × List DOutput :=
  let hist1 := dequeAppend (2 * e.confirmation_count) e.score_history score
  let e1 := {e with score_history := hist1}
  if dev_mode || devActive then
    ({ action := "allow", state := AuthState.NORMAL.value, score := 100,
       reason := "Developer mode active (BYPASS)", dev_mode := true,
       low_score_count := none, confirmation_needed := none }, e1, [])
  else
    let target := e1.determine_state score
    let lsc :=
      if target = .RESTRICTED ∨ target = .LOCKDOWN then e1.low_score_count + 1 else 0
    let e2 := {e1 with low_score_count := lsc}
    let should_change :=
      if strLt target.value e2.current_state.value then
        decide (e2.confirmation_count ≤ lsc)
      else if strLt e2.current_state.value target.value then true
      else false
    let changed := should_change ∧ target ≠ e2.current_state
    let e3 :=
      if changed then
        {e2 with previous_state := e2.current_state, current_state := target}
      else e2
    let outs1 :=
      if changed then onStateChange e2.n_callbacks e2.current_state target score
      else []
    let result : Decision :=
      { action := getActionForState e3.current_state,
        state := e3.current_state.value, score := score,
        reason := getReason e3.current_state score, dev_mode := false,
        low_score_count := some lsc,
        confirmation_needed := some
          (if lsc < e3.confirmation_count then e3.confirmation_count - lsc else 0) }
    (result, e3, outs1 ++ (if e3.hasDb then [.dbDecision result.state score] else []))

/-- `DecisionEngine.force_state`: sets the state directly and writes an
audit record; no callback, no publication. -/
def DecisionEngine.force_state (e : DecisionEngine) (state : AuthState)
    (reason : String) : DecisionEngine × List DOutput :=
  ({e with current_state := state, previous_state := e.current_state},
   if e.hasDb then [.dbOverride state.value reason] else [])

/-- A freshly constructed `DecisionEngine()` with the default arguments
(no callbacks registered, database unavailable). -/
def engine0 : DecisionEngine :=
  { normal_threshold := 70, monitoring_threshold := 50,
    restricted_threshold := 35, lockdown_threshold := 20,
    confirmation_count := 3, current_state := .NORMAL,
    previous_state := .NORMAL, score_history := [], low_score_count := 0,
    n_callbacks := 0, hasDb := false }

/-- The default engine after the admin override `force_state(RESTRICTED)`. -/
def engineRestricted : DecisionEngine :=
  (engine0.force_state .RESTRICTED "Manual override").1

/-! ## `inference_engine.py` -/

/-- A JSON feature value as received by the scoring functions
(`Dict[str, float]` in the annotation, but dictionaries coming off the
wire also carry booleans, strings and nulls). -/
inductive PyVal where
  | num (q : ℚ)
  | boolv (b : Bool)
  | strv (s : String)
  | nonev
deriving DecidableEq, Repr

/-- Python `float(v)`: numbers pass through, booleans coerce (bool is an
int subclass), strings and None raise. -/
def pyFloat : PyVal → Except Unit ℚ
  | .num q => .ok q
  | .boolv b => .ok (if b then 1 else 0)
  | .strv _ => .error ()
  | .nonev => .error ()

/-- Python `isinstance(v, (int, float))` (true for booleans too, since
`bool` subclasses `int`). -/
def isNumeric : PyVal → Bool
  | .num _ => true
  | .boolv _ => true
  | _ => false

/-- `dict.get(k)` on an association list. -/
def lookupA (l : List (String × α)) (k : String) : Option α :=
  (l.find? (fun p => p.1 = k)).map (fun p => p.2)

/-- The ordered build of `feature_vector`: for each model feature name,
`features.get(name, 0.0)`, then `float(value) if value is not None else
0.0` (a string value makes `float` raise). -/
def buildVectorOrdered (names : List String)
    (features : List (String × PyVal)) : Except Unit (List ℚ) :=
  names.foldr
    (fun n acc => do
      let v := (lookupA features n).getD (.num 0)
      let x ← if v = .nonev then pure (0 : ℚ) else pyFloat v
      let rest ← acc
      pure (x :: rest))
    (pure [])

/-- The fallback build of `feature_vector`: all numeric values whose key is
not `dev_mode`, `timestamp` or `type`. -/
def buildVectorFallback (features : List (String × PyVal)) : List ℚ :=
  (features.filter
      (fun p => isNumeric p.2 && !(["dev_mode", "timestamp", "type"].contains p.1))).map
    (fun p => match p.2 with
      | .num q => q
      | .boolv b => if b then 1 else 0
      | _ => 0)

/-- Builds the feature vector: ordered when the model shipped feature
names, fallback otherwise. -/
def buildFeatureVector (names : List String)
    (features : List (String × PyVal)) : Except Unit (List ℚ) :=
  if names ≠ [] then buildVectorOrdered names features
  else .ok (buildVectorFallback features)

/-- The de-pickled keystroke model object.  `predict_proba` — present when
the attribute exists — returns the probability of the genuine class
(`proba[0][1]`); otherwise binary `predict` is used.  Either call may
raise. -/
structure KModel where
  predict_proba : Option (List ℚ → Except Unit ℚ)
  predict : List ℚ → Except Unit ℤ

/-- The de-pickled mouse model object (One-Class SVM):
`decision_function` when the attribute exists, binary `predict`
otherwise.  Either call may raise. -/
structure MModel where
  decision_function : Option (List ℚ → Except Unit ℚ)
  predict : List ℚ → Except Unit ℤ

/-- `time_patterns[app]` entry of the app model JSON. -/
structure TimePattern where
  hourly_distribution : Option (List (String × Option ℚ))

/-- The app usage Markov model JSON: `markov_chain.transitions` keyed by
`"from->to"` (each entry optionally carrying `probability`), and
`time_patterns` keyed by app name. -/
structure AppModel where
  transitions : List (String × Option ℚ)
  time_patterns : List (String × TimePattern)

/-- `InferenceEngine` state: at most one loaded model per modality and the
three bounded score histories used for smoothing. -/
structure InferenceEngine where
  keystroke_model : Option KModel
  keystroke_feature_names : List String
  mouse_model : Option MModel
  mouse_scaler : Option (List ℚ → Except Unit (List ℚ))
  mouse_feature_names : List String
  app_model : Option AppModel
  keystroke_scores : List ℚ
  mouse_scores : List ℚ
  app_scores : List ℚ

/-- Dispatch on `hasattr(model, "predict_proba")`:
`proba[0][1] * 100`, or the binary fallback `100 if pred == 1 else 0`. -/
def kModelScore (m : KModel) (X : List ℚ) : Except Unit ℚ :=
  match m.predict_proba with
  | some f => (f X).map (fun p => p * 100)
  | none => (m.predict X).map (fun pred => if pred = 1 then (100 : ℚ) else 0)

/-- `InferenceEngine.score_keystroke_features`.  Returns the score and the
updated engine; every exception inside the `try` block yields the neutral
score 50 and leaves the history untouched. -/
def InferenceEngine.score_keystroke_features (e : InferenceEngine)
    (features : List (String × PyVal)) : ℚ × InferenceEngine :=
  match e.keystroke_model with
  | none => (50, e)
  | some m =>
    match buildFeatureVector e.keystroke_feature_names features with
    | .error _ => (50, e)
    | .ok fv =>
      if fv = [] then (50, e)
      else
        match kModelScore m fv with
        | .error _ => (50, e)
        | .ok score =>
          (score, {e with keystroke_scores := dequeAppend 10 e.keystroke_scores score})

/-- `X = scaler.transform(X)` when a scaler was loaded. -/
def scaleVec (scaler : Option (List ℚ → Except Unit (List ℚ)))
    (fv : List ℚ) : Except Unit (List ℚ) :=
  match scaler with
  | some sc => sc fv
  | none => .ok fv

/-- The mouse model scoring step: `predict` is always called; with a
`decision_function` the score is the sigmoid `100 / (1 + exp(-decision))`,
otherwise `100 if pred == 1 else 0`.  `pexp` abstracts `np.exp`. -/
def mModelScore (pexp : ℚ → ℚ) (m : MModel) (X : List ℚ) : Except Unit ℚ := do
  let pred ← m.predict X
  match m.decision_function with
  | some df => do
    let d ← df X
    pure (100 / (1 + pexp (-d)))
  | none => pure (if pred = 1 then (100 : ℚ) else 0)

/-- `InferenceEngine.score_mouse_features`. -/
def InferenceEngine.score_mouse_features (pexp : ℚ → ℚ) (e : InferenceEngine)
    (features : List (String × PyVal)) : ℚ × InferenceEngine :=
  match e.mouse_model with
  | none => (50, e)
  | some m =>
    match buildFeatureVector e.mouse_feature_names features with
    | .error _ => (50, e)
    | .ok fv =>
      if fv = [] then (50, e)
      else
        match scaleVec e.mouse_scaler fv with
        | .error _ => (50, e)
        | .ok X =>
          match mModelScore pexp m X with
          | .error _ => (50, e)
          | .ok score =>
            (score, {e with mouse_scores := dequeAppend 10 e.mouse_scores score})

/-- `InferenceEngine.score_app_transition`.  `lg` abstracts `np.log10`,
`sq` abstracts `np.sqrt`. -/
def InferenceEngine.score_app_transition (lg sq : ℚ → ℚ) (e : InferenceEngine)
    (from_app to_app : String) (current_hour : ℕ) : ℚ × InferenceEngine :=
  match e.app_model with
  | none => (50, e)
  | some m =>
    let transition_key := from_app ++ "->" ++ to_app
    let transition_prob :=
      match lookupA m.transitions transition_key with
      | none => 1 / 100
      | some o => o.getD (1 / 100)
    let hourly :=
      match lookupA m.time_patterns to_app with
      | none => []
      | some p => p.hourly_distribution.getD []
    let time_prob :=
      match lookupA hourly (toString current_hour) with
      | none => 1 / 100
      | some o => o.getD (1 / 100)
    let combined_prob := sq (transition_prob * time_prob)
    let score := min 100 (max 0 (50 + 50 * lg (combined_prob + 1 / 1000) / 2))
    (score, {e with app_scores := dequeAppend 10 e.app_scores score})

/-- The inner `smooth` closure of `get_smoothed_scores`: seed with the
oldest retained score, then `result = alpha * score + (1 - alpha) * result`
left to right; 50 on an empty history. -/
def smooth (scores : List ℚ) (alpha : ℚ) : ℚ :=
  match scores with
  | [] => 50
  | s0 :: rest => rest.foldl (fun result score => alpha * score + (1 - alpha) * result) s0

/-- The dictionary returned by `get_smoothed_scores`. -/
structure SmoothedScores where
  keystroke : ℚ
  mouse : ℚ
  app : ℚ
deriving DecidableEq, Repr

/-- `InferenceEngine.get_smoothed_scores` (α = 0.3 for every modality). -/
def InferenceEngine.get_smoothed_scores (e : InferenceEngine) : SmoothedScores :=
  { keystroke := smooth e.keystroke_scores (3 / 10),
    mouse := smooth e.mouse_scores (3 / 10),
    app := smooth e.app_scores (3 / 10) }

/-- `InferenceEngine.get_fused_score`: weights normalized by their sum,
then the weighted combination of the smoothed scores. -/
def InferenceEngine.get_fused_score (e : InferenceEngine)
    (keystroke_weight mouse_weight app_weight : ℚ) : ℚ :=
  let smoothed := e.get_smoothed_scores
  let total_weight := keystroke_weight + mouse_weight + app_weight
  let kw := keystroke_weight / total_weight
  let mw := mouse_weight / total_weight
  let aw := app_weight / total_weight
  smoothed.keystroke * kw + smoothed.mouse * mw + smoothed.app * aw

/-- The claim's exponential moving average: r₀ = s₀ and
rᵢ = 0.3·sᵢ + 0.7·rᵢ₋₁, applied left-to-right over the retained history
(oldest to newest), seeded by the oldest retained score. -/
def emaSpec (r : ℚ) : List ℚ → ℚ
  | [] => r
  | s :: rest => emaSpec (3 / 10 * s + 7 / 10 * r) rest

end SecLyzer

namespace SecLyzer

/-! ## Theorems about the decision engine -/

/-- C1: refuted on the code.  In the default engine (state NORMAL,
`confirmation_count = 3`, counter 0), a single score of 40 targets
RESTRICTED — a strictly lower-trust state — yet `process_score` changes the
authoritative state to RESTRICTED on that very first qualifying observation
(counter 1 < 3): the comparison `target_state.value < self.current_state.value`
is performed on the enum's *strings*, and `"restricted" > "normal"`
lexicographically, so the degradation is routed through the
"improving - change immediately" branch. -/
theorem degradation_confirmation_bug :
    engine0.current_state = AuthState.NORMAL ∧
    engine0.low_score_count = 0 ∧
    engine0.confirmation_count = 3 ∧
    engine0.determine_state 40 = AuthState.RESTRICTED ∧
    trustRank (engine0.determine_state 40) < trustRank engine0.current_state ∧
    (engine0.process_score 40 false false).2.1.low_score_count = 1 ∧
    (engine0.process_score 40 false false).2.1.current_state = AuthState.RESTRICTED := by
  decide

/-- C2: refuted on the code.  From the RESTRICTED state (reached by the
admin override), a single score of 90 targets NORMAL — a strictly
higher-trust state — and does reset the low-score counter to 0, but the
authoritative state stays RESTRICTED instead of improving to NORMAL:
`"normal" < "restricted"` lexicographically, so the improvement is routed
through the "degrading - require confirmation" branch, whose counter was
just reset and can never reach the threshold. -/
theorem improvement_immediate_bug :
    engineRestricted.current_state = AuthState.RESTRICTED ∧
    engineRestricted.determine_state 90 = AuthState.NORMAL ∧
    trustRank engineRestricted.current_state
      < trustRank (engineRestricted.determine_state 90) ∧
    (engineRestricted.process_score 90 false false).2.1.low_score_count = 0 ∧
    (engineRestricted.process_score 90 false false).2.1.current_state
      = AuthState.RESTRICTED := by
  decide

/-- C3: for thresholds T_normal > T_monitor > T_restrict, `determine_state`
maps scores ≥ T_normal to NORMAL, [T_monitor, T_normal) to MONITORING,
[T_restrict, T_monitor) to RESTRICTED and everything below T_restrict to
LOCKDOWN — the first satisfied threshold from highest to lowest wins. -/
theorem determine_state_partitions (e : DecisionEngine) (s : ℚ)
    (h1 : e.monitoring_threshold < e.normal_threshold)
    (h2 : e.restricted_threshold < e.monitoring_threshold) :
    (e.determine_state s = .NORMAL ↔ e.normal_threshold ≤ s) ∧
    (e.determine_state s = .MONITORING ↔
      e.monitoring_threshold ≤ s ∧ s < e.normal_threshold) ∧
    (e.determine_state s = .RESTRICTED ↔
      e.restricted_threshold ≤ s ∧ s < e.monitoring_threshold) ∧
    (e.determine_state s = .LOCKDOWN ↔ s < e.restricted_threshold) := by
  unfold DecisionEngine.determine_state
  split_ifs with hn hm hr <;>
    refine ⟨?_, ?_, ?_, ?_⟩ <;> simp_all <;> intros <;> linarith

/-- Witness for C3 at the default thresholds and score 60. -/
theorem determine_state_partitions_witness :
    (engine0.monitoring_threshold < engine0.normal_threshold ∧
      engine0.restricted_threshold < engine0.monitoring_threshold) ∧
    ((engine0.determine_state 60 = .NORMAL ↔ engine0.normal_threshold ≤ 60) ∧
    (engine0.determine_state 60 = .MONITORING ↔
      engine0.monitoring_threshold ≤ 60 ∧ (60 : ℚ) < engine0.normal_threshold) ∧
    (engine0.determine_state 60 = .RESTRICTED ↔
      engine0.restricted_threshold ≤ 60 ∧ (60 : ℚ) < engine0.monitoring_threshold) ∧
    (engine0.determine_state 60 = .LOCKDOWN ↔ (60 : ℚ) < engine0.restricted_threshold)) :=
  ⟨⟨by decide, by decide⟩,
    determine_state_partitions engine0 60 (by decide) (by decide)⟩

/-- C4: with developer mode active, `process_score` short-circuits to the
fixed bypass decision {allow, normal, 100, dev_mode} and leaves the
authoritative state, the low-score counter, and the effect channel
untouched. -/
theorem process_score_dev_bypass (e : DecisionEngine) (score : ℚ) (dm da : Bool)
    (h : (dm || da) = true) :
    (e.process_score score dm da).1 =
      { action := "allow", state := "normal", score := 100,
        reason := "Developer mode active (BYPASS)", dev_mode := true,
        low_score_count := none, confirmation_needed := none } ∧
    (e.process_score score dm da).2.1.current_state = e.current_state ∧
    (e.process_score score dm da).2.1.low_score_count = e.low_score_count ∧
    (e.process_score score dm da).2.2 = [] := by
  unfold DecisionEngine.process_score
  simp [h, AuthState.value]

/-- Witness for C4: default engine, raw score 5, `dev_mode=True`. -/
theorem process_score_dev_bypass_witness :
    ((true || false) = true) ∧
    ((engine0.process_score 5 true false).1 =
      { action := "allow", state := "normal", score := 100,
        reason := "Developer mode active (BYPASS)", dev_mode := true,
        low_score_count := none, confirmation_needed := none } ∧
    (engine0.process_score 5 true false).2.1.current_state = engine0.current_state ∧
    (engine0.process_score 5 true false).2.1.low_score_count = engine0.low_score_count ∧
    (engine0.process_score 5 true false).2.2 = []) :=
  ⟨rfl, process_score_dev_bypass engine0 5 true false rfl⟩

/-- C10: `force_state` makes the requested state authoritative immediately
(recording the previous one), but emits no `seclyzer:state_change`
publication and invokes no registered state-change callback — even when the
state actually changes — so a forced change is never delivered to the
locking engine. -/
theorem force_state_no_notification (e : DecisionEngine) (st : AuthState)
    (why : String) :
    (e.force_state st why).1.current_state = st ∧
    (e.force_state st why).1.previous_state = e.current_state ∧
    ((e.force_state st why).2.all
      (fun o => !o.isPublish && !o.isCallback)) = true := by
  refine ⟨rfl, rfl, ?_⟩
  unfold DecisionEngine.force_state
  cases e.hasDb <;> simp [DOutput.isPublish, DOutput.isCallback]

end SecLyzer

namespace SecLyzer

/-! ## Theorems about the inference engine -/

/-- An `InferenceEngine` for which no model file was found for any
modality. -/
def engineNoModels : InferenceEngine :=
  { keystroke_model := none, keystroke_feature_names := [],
    mouse_model := none, mouse_scaler := none, mouse_feature_names := [],
    app_model := none, keystroke_scores := [], mouse_scores := [],
    app_scores := [] }

/-- A keystroke model whose `predict_proba` raises (e.g. incompatible
feature shape). -/
def raisingKModel : KModel :=
  { predict_proba := some (fun _ => .error ()), predict := fun _ => .ok 1 }

/-- A mouse model whose `predict` raises. -/
def raisingMModel : MModel :=
  { decision_function := none, predict := fun _ => .error () }

/-- An engine whose loaded models raise during scoring. -/
def engineRaising : InferenceEngine :=
  { engineNoModels with
    keystroke_model := some raisingKModel, keystroke_feature_names := ["f1"],
    mouse_model := some raisingMModel, mouse_feature_names := ["f1"] }

/-- A one-entry feature dictionary. -/
def features1 : List (String × PyVal) := [("f1", .num 2)]

/-- C7: both scoring functions return the neutral score 50 when no model
is loaded for their modality, and also return 50 — never raising — when
the underlying model raises during scoring. -/
theorem neutral_score_on_missing_or_failing_model
    (pexp : ℚ → ℚ) (e : InferenceEngine) (features : List (String × PyVal))
    (m : KModel) (mm : MModel) (fv fvm X : List ℚ) :
    (e.keystroke_model = none → (e.score_keystroke_features features).1 = 50) ∧
    (e.mouse_model = none →
      (InferenceEngine.score_mouse_features pexp e features).1 = 50) ∧
    (e.keystroke_model = some m →
      buildFeatureVector e.keystroke_feature_names features = .ok fv →
      kModelScore m fv = .error () →
      (e.score_keystroke_features features).1 = 50) ∧
    (e.mouse_model = some mm →
      buildFeatureVector e.mouse_feature_names features = .ok fvm →
      scaleVec e.mouse_scaler fvm = .ok X →
      mModelScore pexp mm X = .error () →
      (InferenceEngine.score_mouse_features pexp e features).1 = 50) := by
  refine ⟨?_, ?_, ?_, ?_⟩
  · intro h
    simp [InferenceEngine.score_keystroke_features, h]
  · intro h
    simp [InferenceEngine.score_mouse_features, h]
  · intro hm hb herr
    by_cases hfv : fv = [] <;>
      simp [InferenceEngine.score_keystroke_features, hm, hb, hfv, herr]
  · intro hm hb hsc herr
    by_cases hfv : fvm = [] <;>
      simp [InferenceEngine.score_mouse_features, hm, hb, hfv, hsc, herr]

/-- Witness for C7: the engine with no models and the engine whose models
raise both yield 50 for both modalities. -/
theorem neutral_score_witness :
    (engineNoModels.score_keystroke_features features1).1 = 50 ∧
    (InferenceEngine.score_mouse_features (fun q => q) engineNoModels features1).1 = 50 ∧
    (engineRaising.score_keystroke_features features1).1 = 50 ∧
    (InferenceEngine.score_mouse_features (fun q => q) engineRaising features1).1 = 50 :=
  ⟨(neutral_score_on_missing_or_failing_model (fun q => q) engineNoModels features1
      raisingKModel raisingMModel [] [] []).1 rfl,
   (neutral_score_on_missing_or_failing_model (fun q => q) engineNoModels features1
      raisingKModel raisingMModel [] [] []).2.1 rfl,
   (neutral_score_on_missing_or_failing_model (fun q => q) engineRaising features1
      raisingKModel raisingMModel [2] [2] [2]).2.2.1 rfl rfl rfl,
   (neutral_score_on_missing_or_failing_model (fun q => q) engineRaising features1
      raisingKModel raisingMModel [2] [2] [2]).2.2.2 rfl rfl rfl rfl⟩

/-- C8: with strictly positive weights, `get_fused_score` is the convex
combination of the three smoothed modality scores under the normalized
weights (which sum to 1), and therefore lies between their minimum and
maximum. -/
theorem fused_score_convex (e : InferenceEngine) (kw mw aw : ℚ)
    (hk : 0 < kw) (hm : 0 < mw) (ha : 0 < aw) :
    kw / (kw + mw + aw) + mw / (kw + mw + aw) + aw / (kw + mw + aw) = 1 ∧
    e.get_fused_score kw mw aw =
      e.get_smoothed_scores.keystroke * (kw / (kw + mw + aw)) +
      e.get_smoothed_scores.mouse * (mw / (kw + mw + aw)) +
      e.get_smoothed_scores.app * (aw / (kw + mw + aw)) ∧
    min (min e.get_smoothed_scores.keystroke e.get_smoothed_scores.mouse)
        e.get_smoothed_scores.app ≤ e.get_fused_score kw mw aw ∧
    e.get_fused_score kw mw aw ≤
      max (max e.get_smoothed_scores.keystroke e.get_smoothed_scores.mouse)
        e.get_smoothed_scores.app := by
  have ht : 0 < kw + mw + aw := by linarith
  have hsum : kw / (kw + mw + aw) + mw / (kw + mw + aw) + aw / (kw + mw + aw) = 1 := by
    field_simp
  have hfused : e.get_fused_score kw mw aw =
      e.get_smoothed_scores.keystroke * (kw / (kw + mw + aw)) +
      e.get_smoothed_scores.mouse * (mw / (kw + mw + aw)) +
      e.get_smoothed_scores.app * (aw / (kw + mw + aw)) := rfl
  have hw1 : (0 : ℚ) ≤ kw / (kw + mw + aw) := div_nonneg hk.le ht.le
  have hw2 : (0 : ℚ) ≤ mw / (kw + mw + aw) := div_nonneg hm.le ht.le
  have hw3 : (0 : ℚ) ≤ aw / (kw + mw + aw) := div_nonneg ha.le ht.le
  refine ⟨hsum, hfused, ?_, ?_⟩
  · set s1 := e.get_smoothed_scores.keystroke
    set s2 := e.get_smoothed_scores.mouse
    set s3 := e.get_smoothed_scores.app
    set w1 := kw / (kw + mw + aw)
    set w2 := mw / (kw + mw + aw)
    set w3 := aw / (kw + mw + aw)
    have h1 : min (min s1 s2) s3 ≤ s1 := le_trans (min_le_left _ _) (min_le_left _ _)
    have h2 : min (min s1 s2) s3 ≤ s2 := le_trans (min_le_left _ _) (min_le_right _ _)
    have h3 : min (min s1 s2) s3 ≤ s3 := min_le_right _ _
    have p1 := mul_le_mul_of_nonneg_right h1 hw1
    have p2 := mul_le_mul_of_nonneg_right h2 hw2
    have p3 := mul_le_mul_of_nonneg_right h3 hw3
    have hmm : min (min s1 s2) s3 * w1 + min (min s1 s2) s3 * w2 +
        min (min s1 s2) s3 * w3 = min (min s1 s2) s3 := by
      calc min (min s1 s2) s3 * w1 + min (min s1 s2) s3 * w2 + min (min s1 s2) s3 * w3
          = min (min s1 s2) s3 * (w1 + w2 + w3) := by ring
        _ = min (min s1 s2) s3 := by rw [hsum, mul_one]
    rw [hfused]
    linarith
  · set s1 := e.get_smoothed_scores.keystroke
    set s2 := e.get_smoothed_scores.mouse
    set s3 := e.get_smoothed_scores.app
    set w1 := kw / (kw + mw + aw)
    set w2 := mw / (kw + mw + aw)
    set w3 := aw / (kw + mw + aw)
    have h1 : s1 ≤ max (max s1 s2) s3 := le_trans (le_max_left _ _) (le_max_left _ _)
    have h2 : s2 ≤ max (max s1 s2) s3 := le_trans (le_max_right _ _) (le_max_left _ _)
    have h3 : s3 ≤ max (max s1 s2) s3 := le_max_right _ _
    have p1 := mul_le_mul_of_nonneg_right h1 hw1
    have p2 := mul_le_mul_of_nonneg_right h2 hw2
    have p3 := mul_le_mul_of_nonneg_right h3 hw3
    have hmm : max (max s1 s2) s3 * w1 + max (max s1 s2) s3 * w2 +
        max (max s1 s2) s3 * w3 = max (max s1 s2) s3 := by
      calc max (max s1 s2) s3 * w1 + max (max s1 s2) s3 * w2 + max (max s1 s2) s3 * w3
          = max (max s1 s2) s3 * (w1 + w2 + w3) := by ring
        _ = max (max s1 s2) s3 := by rw [hsum, mul_one]
    rw [hfused]
    linarith

end SecLyzer

namespace SecLyzer

/-- An engine holding concrete score histories (no models needed). -/
def engineHist : InferenceEngine :=
  { engineNoModels with
    keystroke_scores := [60, 40], mouse_scores := [80], app_scores := [20, 30, 70] }

/-- Witness for C8 at the default weights 0.4 / 0.35 / 0.25 on
`engineHist`. -/
theorem fused_score_convex_witness :
    ((0 : ℚ) < 2 / 5 ∧ (0 : ℚ) < 7 / 20 ∧ (0 : ℚ) < 1 / 4) ∧
    (min (min engineHist.get_smoothed_scores.keystroke
            engineHist.get_smoothed_scores.mouse)
        engineHist.get_smoothed_scores.app ≤
      engineHist.get_fused_score (2 / 5) (7 / 20) (1 / 4) ∧
    engineHist.get_fused_score (2 / 5) (7 / 20) (1 / 4) ≤
      max (max engineHist.get_smoothed_scores.keystroke
            engineHist.get_smoothed_scores.mouse)
        engineHist.get_smoothed_scores.app) :=
  ⟨⟨by norm_num, by norm_num, by norm_num⟩,
    (fused_score_convex engineHist (2 / 5) (7 / 20) (1 / 4)
      (by norm_num) (by norm_num) (by norm_num)).2.2⟩

/-- A `dequeAppend` never leaves the list longer than the capacity. -/
theorem dequeAppend_length_le (m : ℕ) (l : List α) (a : α) :
    (dequeAppend m l a).length ≤ m := by
  unfold dequeAppend
  split_ifs with h
  · exact h
  · simp only [List.length_drop]
    omega

/-- `foldl` of the smoothing step agrees with the spec's recurrence. -/
theorem foldl_emaSpec (t : List ℚ) : ∀ r : ℚ,
    t.foldl (fun result score => 3 / 10 * score + (1 - 3 / 10) * result) r =
      emaSpec r t := by
  induction t with
  | nil => intro r; rfl
  | cons s t ih =>
    intro r
    show t.foldl _ (3 / 10 * s + (1 - 3 / 10) * r) = emaSpec (3 / 10 * s + 7 / 10 * r) t
    rw [ih]
    norm_num

end SecLyzer

namespace SecLyzer

/-- C9: each modality's retained score history never exceeds 10 entries
after a scoring call (the deque evicts the oldest entry when full), and
the smoothed value of a non-empty retained history equals the left-to-right
exponential moving average with α = 0.3 seeded by the oldest retained
score. -/
theorem score_history_bounded_ema (pexp lg sq : ℚ → ℚ) (e : InferenceEngine)
    (features : List (String × PyVal)) (fa ta : String) (hr : ℕ) :
    ((e.score_keystroke_features features).2.keystroke_scores.length ≤
      max 10 e.keystroke_scores.length) ∧
    ((InferenceEngine.score_mouse_features pexp e features).2.mouse_scores.length ≤
      max 10 e.mouse_scores.length) ∧
    ((InferenceEngine.score_app_transition lg sq e fa ta hr).2.app_scores.length ≤
      max 10 e.app_scores.length) ∧
    (∀ (l : List ℚ) (s : ℚ), l.length = 10 → dequeAppend 10 l s = l.drop 1 ++ [s]) ∧
    (∀ (s0 : ℚ) (rest : List ℚ), e.keystroke_scores = s0 :: rest →
      e.get_smoothed_scores.keystroke = emaSpec s0 rest) ∧
    (∀ (s0 : ℚ) (rest : List ℚ), e.mouse_scores = s0 :: rest →
      e.get_smoothed_scores.mouse = emaSpec s0 rest) ∧
    (∀ (s0 : ℚ) (rest : List ℚ), e.app_scores = s0 :: rest →
      e.get_smoothed_scores.app = emaSpec s0 rest) := by
  refine ⟨?_, ?_, ?_, ?_, ?_, ?_, ?_⟩
  · unfold InferenceEngine.score_keystroke_features
    cases hk : e.keystroke_model with
    | none => simp
    | some m =>
      cases hb : buildFeatureVector e.keystroke_feature_names features with
      | error u => simp
      | ok fv =>
        by_cases hfv : fv = []
        · simp [hfv]
        · cases hs : kModelScore m fv with
          | error u => simp [hfv, hs]
          | ok score =>
            simp [hfv, hs]
            exact Or.inl (dequeAppend_length_le _ _ _)
  · unfold InferenceEngine.score_mouse_features
    cases hk : e.mouse_model with
    | none => simp
    | some m =>
      cases hb : buildFeatureVector e.mouse_feature_names features with
      | error u => simp
      | ok fv =>
        by_cases hfv : fv = []
        · simp [hfv]
        · cases hsc : scaleVec e.mouse_scaler fv with
          | error u => simp [hfv, hsc]
          | ok X =>
            cases hs : mModelScore pexp m X with
            | error u => simp [hfv, hsc, hs]
            | ok score =>
              simp [hfv, hsc, hs]
              exact Or.inl (dequeAppend_length_le _ _ _)
  · unfold InferenceEngine.score_app_transition
    cases hk : e.app_model with
    | none => simp
    | some m =>
      simp
      exact Or.inl (dequeAppend_length_le _ _ _)
  · intro l s hl
    unfold dequeAppend
    rw [if_neg (by simp [hl])]
    have h1 : (l ++ [s]).length - 10 = 1 := by simp [hl]
    rw [h1]
    exact List.drop_append_of_le_length (by omega)
  · intro s0 rest h
    show smooth e.keystroke_scores (3 / 10) = emaSpec s0 rest
    rw [h]
    exact foldl_emaSpec rest s0
  · intro s0 rest h
    show smooth e.mouse_scores (3 / 10) = emaSpec s0 rest
    rw [h]
    exact foldl_emaSpec rest s0
  · intro s0 rest h
    show smooth e.app_scores (3 / 10) = emaSpec s0 rest
    rw [h]
    exact foldl_emaSpec rest s0

end SecLyzer

namespace SecLyzer

/-- Witness for C9: a full ten-entry history evicts its oldest entry, and
`engineHist`'s smoothed keystroke score follows the EMA recurrence. -/
theorem score_history_bounded_ema_witness :
    ([(0 : ℚ), 1, 2, 3, 4, 5, 6, 7, 8, 9].length = 10 ∧
      dequeAppend 10 [(0 : ℚ), 1, 2, 3, 4, 5, 6, 7, 8, 9] 99 =
        [(0 : ℚ), 1, 2, 3, 4, 5, 6, 7, 8, 9].drop 1 ++ [99]) ∧
    (engineHist.keystroke_scores = 60 :: [40] ∧
      engineHist.get_smoothed_scores.keystroke = emaSpec 60 [40]) :=
  ⟨⟨by decide,
    (score_history_bounded_ema (fun q => q) (fun q => q) (fun q => q)
      engineHist [] "a" "b" 0).2.2.2.1 _ _ (by decide)⟩,
   ⟨rfl,
    (score_history_bounded_ema (fun q => q) (fun q => q) (fun q => q)
      engineHist [] "a" "b" 0).2.2.2.2.1 60 [40] rfl⟩⟩

/-! ## `locking_engine.py` -/

/-- Outcome of the `subprocess.run` call for the lock command:
it completes with some exit status, times out (`TimeoutExpired`), or
raises some other exception. -/
inductive RunOutcome where
  | completed (returncode : ℤ)
  | timeoutExpired
  | raised
deriving DecidableEq, Repr

/-- Observable effect of the locking engine: an action-callback
notification with its payload's `success` flag. -/
inductive LockOutput where
  | notify (action : String) (success : Bool)
deriving DecidableEq, Repr

/-- `LockingEngine` configuration state.  `n_callbacks` is the number of
registered action callbacks. -/
structure LockingEngine where
  enable_lock : Bool
  enable_notifications : Bool
  lock_on_restricted : Bool
  lock_on_lockdown : Bool
  enabled : Bool
  n_callbacks : ℕ
deriving DecidableEq, Repr

/-- `LockingEngine._notify_callbacks`: every registered callback is
invoked (exceptions swallowed). -/
def notifyCallbacks (n : ℕ) (action : String) (success : Bool) : List LockOutput :=
  List.replicate n (.notify action success)

/-- `LockingEngine.lock_screen`.  `devActive` models
`self.dev_mode and self.dev_mode.is_active()`; `outcome` is what the
external lock command does.  Returns the boolean result and the emitted
callback notifications.  Note the `subprocess.run` call is made without
`check=True`: a completed command is treated as success regardless of its
exit status. -/
def LockingEngine.lock_screen (e : LockingEngine) (devActive : Bool)
    (outcome : RunOutcome) : Bool × List LockOutput :=
  if !e.enable_lock || !e.enabled then (false, [])
  else if devActive then (false, [])
  else
    match outcome with
    | .completed _ => (true, notifyCallbacks e.n_callbacks "lock" true)
    | .timeoutExpired => (false, notifyCallbacks e.n_callbacks "lock" false)
    | .raised => (false, notifyCallbacks e.n_callbacks "lock" false)

/-- A `LockingEngine()` with the default arguments and one registered
action callback. -/
def locker1 : LockingEngine :=
  { enable_lock := true, enable_notifications := true,
    lock_on_restricted := false, lock_on_lockdown := true,
    enabled := true, n_callbacks := 1 }

/-- C6: refuted on the code.  When the lock command completes with a
non-zero exit status, `lock_screen` reports success: `subprocess.run` is
called without `check=True`, so a non-zero exit does not raise, the
observer is notified with `success=True`, and the function returns
`True` — the claim says a non-zero exit status is a failure (observers
notified with success=false, return False). -/
theorem lock_screen_nonzero_exit_counterexample :
    locker1.lock_screen false (.completed 1) =
      (true, [.notify "lock" true]) := by
  decide

/-- C6 amended: with locking enabled and developer mode inactive,
a timeout or an exception from the lock command is never escalated —
every registered observer is notified of a lock action with
`success=false` and the function returns `False`; when the `subprocess.run`
call completes without raising (regardless of exit status), observers are
notified with `success=true` and the function returns `True`. -/
theorem lock_screen_failure_handling (e : LockingEngine)
    (outcome : RunOutcome)
    (hl : e.enable_lock = true) (he : e.enabled = true) :
    ((outcome = .timeoutExpired ∨ outcome = .raised) →
      e.lock_screen false outcome =
        (false, List.replicate e.n_callbacks (.notify "lock" false))) ∧
    (∀ rc : ℤ, outcome = .completed rc →
      e.lock_screen false outcome =
        (true, List.replicate e.n_callbacks (.notify "lock" true))) := by
  constructor
  · rintro (h | h) <;>
      simp [LockingEngine.lock_screen, hl, he, h, notifyCallbacks]
  · intro rc h
    simp [LockingEngine.lock_screen, hl, he, h, notifyCallbacks]

/-- Witness for the amended C6 at the default configuration. -/
theorem lock_screen_failure_handling_witness :
    (locker1.enable_lock = true ∧ locker1.enabled = true) ∧
    locker1.lock_screen false .timeoutExpired =
      (false, List.replicate locker1.n_callbacks (.notify "lock" false)) ∧
    locker1.lock_screen false (.completed 0) =
      (true, List.replicate locker1.n_callbacks (.notify "lock" true)) :=
  ⟨⟨rfl, rfl⟩,
   (lock_screen_failure_handling locker1 .timeoutExpired rfl rfl).1 (Or.inl rfl),
   (lock_screen_failure_handling locker1 (.completed 0) rfl rfl).2 0 rfl⟩

end SecLyzer

namespace SecLyzer

/-! ## Statistics helpers shared by the extractors (numpy over ℚ;
`sq` abstracts `np.sqrt` wherever a standard deviation or a euclidean
norm is taken). -/

/-- `np.mean` (0 on an empty list, which numpy never sees here). -/
def lmean (l : List ℚ) : ℚ := l.sum / l.length

/-- `np.var` — population variance. -/
def lvar (l : List ℚ) : ℚ := lmean (l.map (fun x => (x - lmean l) ^ 2))

/-- `np.std` = sqrt of the population variance. -/
def stdQ (sq : ℚ → ℚ) (l : List ℚ) : ℚ := sq (lvar l)

/-- `np.min` of a non-empty list (0 on []). -/
def lminQ : List ℚ → ℚ
  | [] => 0
  | h :: t => t.foldl min h

/-- `np.max` of a non-empty list (0 on []). -/
def lmaxQ : List ℚ → ℚ
  | [] => 0
  | h :: t => t.foldl max h

/-- Stable insertion before the first strictly greater key. -/
def insertByKey (keyf : α → ℚ) (x : α) : List α → List α
  | [] => [x]
  | y :: t => if keyf x < keyf y then x :: y :: t else y :: insertByKey keyf x t

/-- Stable sort by a rational key (models the stable sorts of
`polars.sort` / `numpy.sort` / Python `sorted`). -/
def sortByKey (keyf : α → ℚ) (l : List α) : List α :=
  l.foldl (fun acc x => insertByKey keyf x acc) []

/-- `np.median`: middle of the sorted data, or the average of the two
middles. -/
def medianQ (l : List ℚ) : ℚ :=
  let s := sortByKey id l
  let n := l.length
  if n = 0 then 0
  else if n % 2 = 1 then s.getD (n / 2) 0
  else (s.getD (n / 2 - 1) 0 + s.getD (n / 2) 0) / 2

/-- `np.percentile` with the default linear interpolation. -/
def percentileQ (l : List ℚ) (p : ℚ) : ℚ :=
  let s := sortByKey id l
  let n := l.length
  if n = 0 then 0
  else
    let k : ℚ := ((n : ℚ) - 1) * p / 100
    let lo : ℕ := (⌊k⌋).toNat
    let hi : ℕ := min (lo + 1) (n - 1)
    s.getD lo 0 + (k - (lo : ℚ)) * (s.getD hi 0 - s.getD lo 0)

/-- `np.diff`. -/
def npDiff (l : List ℚ) : List ℚ := List.zipWith (fun a b => b - a) l l.tail

/-- Substring test, modelling `str.contains` on the plain-text parts of
the pattern. -/
def containsSub (s pat : String) : Bool := (s.splitOn pat).length > 1

/-! ## `keystroke_extractor.py` -/

/-- One buffered keystroke event (`_add_event`): timestamp in seconds,
key name, `"press"`/`"release"`, and the developer-mode flag at capture
time. -/
structure KEvent where
  ts : ℚ
  key : String
  event_type : String
  dev_mode : Bool
deriving DecidableEq, Repr

/-- The sliding-window filter of `extract_features`:
events with `timestamp > now - window_seconds`. -/
def kRecentEvents (window_seconds now : ℚ) (events : List KEvent) : List KEvent :=
  events.filter (fun e => decide (now - window_seconds < e.ts))

/-- `df.group_by("key")` with rows kept in frame order inside each group
(group order taken as first occurrence; the aggregates consumed
downstream are order-insensitive). -/
def groupByKey (l : List KEvent) : List (String × List KEvent) :=
  ((l.map (fun e => e.key)).eraseDups).map
    (fun k => (k, l.filter (fun e => e.key == k)))

/-- The press/release pairing loop of `_calculate_dwell_times` over one
key group: a release matched to a pending press yields a dwell,
kept when strictly inside (0, 1000) ms. -/
def dwellScan : List KEvent → Option ℚ → List ℚ
  | [], _ => []
  | e :: t, pressTime =>
    if e.event_type = "press" then dwellScan t (some e.ts)
    else if e.event_type = "release" then
      match pressTime with
      | some pt =>
        (if 0 < (e.ts - pt) * 1000 ∧ (e.ts - pt) * 1000 < 1000
         then [(e.ts - pt) * 1000] else []) ++ dwellScan t none
      | none => dwellScan t none
    else dwellScan t pressTime

/-- `_calculate_dwell_times`. -/
def kDwellTimes (recent : List KEvent) : List ℚ :=
  ((groupByKey recent).map (fun g => dwellScan g.2 none)).flatten

/-- The scan of `_calculate_flight_times` over the timestamp-sorted
events: a press after some release yields a flight, kept when strictly
inside (0, 2000) ms; the pending release is not cleared by a press. -/
def flightScan : List KEvent → Option ℚ → List ℚ
  | [], _ => []
  | e :: t, lastRelease =>
    if e.event_type = "release" then flightScan t (some e.ts)
    else if e.event_type = "press" then
      match lastRelease with
      | some lr =>
        (if 0 < (e.ts - lr) * 1000 ∧ (e.ts - lr) * 1000 < 2000
         then [(e.ts - lr) * 1000] else []) ++ flightScan t lastRelease
      | none => flightScan t none
    else flightScan t lastRelease

/-- `_calculate_flight_times`. -/
def kFlightTimes (recent : List KEvent) : List ℚ :=
  flightScan (sortByKey (fun e => e.ts) recent) none

/-- The timestamp-sorted press events (used by both `_calculate_digraphs`
and `_calculate_rhythm`). -/
def kPresses (recent : List KEvent) : List KEvent :=
  sortByKey (fun e => e.ts) (recent.filter (fun e => e.event_type == "press"))

/-- The consecutive key-pair latencies of `_calculate_digraphs`, with the
(0, 2000) ms sanity filter. -/
def kDigraphPairs : List KEvent → List (String × ℚ)
  | r1 :: r2 :: t =>
    (if 0 < (r2.ts - r1.ts) * 1000 ∧ (r2.ts - r1.ts) * 1000 < 2000
     then [(r1.key ++ "_" ++ r2.key, (r2.ts - r1.ts) * 1000)] else []) ++
      kDigraphPairs (r2 :: t)
  | _ => []

/-- Append a value under a key of an insertion-ordered dict of lists
(`defaultdict(list)`). -/
def addToDict (d : List (String × List ℚ)) (k : String) (v : ℚ) :
    List (String × List ℚ) :=
  if (d.find? (fun p => p.1 == k)).isSome
  then d.map (fun p => if p.1 == k then (p.1, p.2 ++ [v]) else p)
  else d ++ [(k, [v])]

/-- The `digraph_times` dict in insertion order. -/
def kDigraphDict (presses : List KEvent) : List (String × List ℚ) :=
  (kDigraphPairs presses).foldl (fun d p => addToDict d p.1 p.2) []

/-- The 20 most frequent digraphs (stable descending sort by count, as
Python's `sorted(..., key=len, reverse=True)`). -/
def kTopDigraphs (presses : List KEvent) : List (String × List ℚ) :=
  (sortByKey (fun g => -((g.2.length : ℚ))) (kDigraphDict presses)).take 20

/-- `_calculate_digraphs`: the two source loops — means for the observed
top digraphs, zero padding up to 20 — written as one indexed map over the
fixed index range. -/
def kDigraphFeatures (recent : List KEvent) : List (String × PyVal) :=
  let top := kTopDigraphs (kPresses recent)
  (List.range 20).map (fun i =>
    ("digraph_" ++ toString i ++ "_mean",
     match top.get? i with
     | some g => PyVal.num (lmean g.2)
     | none => PyVal.num 0))

/-- `_calculate_error_patterns`. -/
def kErrorFeatures (recent : List KEvent) : List (String × PyVal) :=
  let total_keys := (recent.filter (fun e => e.event_type == "press")).length
  let backspace_count := (recent.filter (fun e =>
    (containsSub e.key "Backspace" || containsSub e.key "Delete") &&
      e.event_type == "press")).length
  [("backspace_frequency",
      .num ((backspace_count : ℚ) / (max total_keys 1 : ℕ))),
   ("backspace_count", .num (backspace_count : ℚ)),
   ("correction_rate",
      .num ((backspace_count : ℚ) / (max (total_keys - backspace_count) 1 : ℕ))),
   ("clean_typing_ratio",
      .num (((total_keys - backspace_count : ℕ) : ℚ) / (max total_keys 1 : ℕ)))]

/-- The inter-key intervals of `_calculate_rhythm`, with the
(0, 5000) ms filter. -/
def kIntervalPairs : List KEvent → List ℚ
  | p1 :: p2 :: t =>
    (if 0 < (p2.ts - p1.ts) * 1000 ∧ (p2.ts - p1.ts) * 1000 < 5000
     then [(p2.ts - p1.ts) * 1000] else []) ++ kIntervalPairs (p2 :: t)
  | _ => []

/-- `_calculate_rhythm`: placeholder zero keys `rhythm_0..rhythm_7` with
fewer than two presses or no valid intervals, the eight named rhythm
descriptors otherwise. -/
def kRhythmFeatures (sq : ℚ → ℚ) (recent : List KEvent) : List (String × PyVal) :=
  let presses := kPresses recent
  if presses.length < 2 then
    (List.range 8).map (fun i => ("rhythm_" ++ toString i, PyVal.num 0))
  else
    let intervals := kIntervalPairs presses
    if intervals = [] then
      (List.range 8).map (fun i => ("rhythm_" ++ toString i, PyVal.num 0))
    else
      let bursts := intervals.filter (fun i => decide (i < medianQ intervals))
      let pauses := intervals.filter (fun i => decide (medianQ intervals ≤ i))
      [("rhythm_consistency",
          .num (1 - stdQ sq intervals / max (lmean intervals) 1)),
       ("burst_frequency",
          .num ((bursts.length : ℚ) / (max intervals.length 1 : ℕ))),
       ("pause_frequency",
          .num ((pauses.length : ℚ) / (max intervals.length 1 : ℕ))),
       ("avg_burst_speed", .num (if bursts ≠ [] then lmean bursts else 0)),
       ("avg_pause_duration", .num (if pauses ≠ [] then lmean pauses else 0)),
       ("rhythm_variation", .num (stdQ sq intervals)),
       ("typing_speed_wpm", .num (60000 / max (lmean intervals) 1 / 5)),
       ("rhythm_stability", .num (1 / (1 + lvar intervals)))]

/-- The eight `{mean, std, min, max, median, q25, q75, range}` statistics
written inline by `extract_features` for the dwell and flight groups. -/
def statsBlock (sq : ℚ → ℚ) (grp : String) (times : List ℚ) :
    List (String × PyVal) :=
  [(grp ++ "_mean", .num (lmean times)),
   (grp ++ "_std", .num (stdQ sq times)),
   (grp ++ "_min", .num (lminQ times)),
   (grp ++ "_max", .num (lmaxQ times)),
   (grp ++ "_median", .num (medianQ times)),
   (grp ++ "_q25", .num (percentileQ times 25)),
   (grp ++ "_q75", .num (percentileQ times 75)),
   (grp ++ "_range", .num (lmaxQ times - lminQ times))]

/-- `KeystrokeExtractor.extract_features`: `None` below 10 window events;
otherwise the feature dict (the successive `dict.update` calls touch
pairwise disjoint key groups, hence plain concatenation). -/
def kExtractFeatures (sq : ℚ → ℚ) (window_seconds now : ℚ)
    (events : List KEvent) : Option (List (String × PyVal)) :=
  let recent := kRecentEvents window_seconds now events
  if recent.length < 10 then none
  else
    some (
      (if kDwellTimes recent ≠ [] then statsBlock sq "dwell" (kDwellTimes recent)
       else []) ++
      (if kFlightTimes recent ≠ [] then statsBlock sq "flight" (kFlightTimes recent)
       else []) ++
      kDigraphFeatures recent ++
      kErrorFeatures recent ++
      kRhythmFeatures sq recent ++
      [("dev_mode", .boolv (recent.any (fun e => e.dev_mode))),
       ("total_keys", .num ((recent.length / 2 : ℕ) : ℚ))])

end SecLyzer

namespace SecLyzer

/-! ## `mouse_extractor.py` -/

/-- One buffered mouse event (`_add_event`). -/
structure MEvent where
  ts : ℚ
  x : Option ℚ
  y : Option ℚ
  event_type : String
  button : Option String
  scroll_delta : Option ℚ
  dev_mode : Bool
deriving DecidableEq, Repr

/-- The sliding-window filter of `extract_features`. -/
def mRecentEvents (window_seconds now : ℚ) (events : List MEvent) : List MEvent :=
  events.filter (fun e => decide (now - window_seconds < e.ts))

/-- `_calculate_movement_features` (called with at least 3 movement
samples).  `sq` abstracts `np.sqrt`, `at2` abstracts `np.arctan2`. -/
def mMovementFeatures (sq : ℚ → ℚ) (at2 : ℚ → ℚ → ℚ) (window_seconds : ℚ)
    (movements : List MEvent) : List (String × PyVal) :=
  let x := movements.map (fun m => m.x.getD 0)
  let y := movements.map (fun m => m.y.getD 0)
  let t := movements.map (fun m => m.ts)
  let dx := npDiff x
  let dy := npDiff y
  let distances := List.zipWith (fun a b => sq (a ^ 2 + b ^ 2)) dx dy
  let dt := (npDiff t).map (fun d => max d (1 / 1000))
  let raw_velocities := List.zipWith (fun dist d => dist / d) distances dt
  let velocities := raw_velocities.filter (fun v => decide (v < 10000))
  let raw_accelerations :=
    if raw_velocities.length > 1 then
      List.zipWith (fun dv d => dv / d) (npDiff raw_velocities) dt.dropLast
    else []
  let accelerations := raw_accelerations.filter (fun a => decide (|a| < 100000))
  let angles := List.zipWith (fun yy xx => at2 yy xx) dy dx
  let angle_changes := (npDiff angles).map abs
  let total_distance := distances.sum
  let straight_distance :=
    sq ((x.getLast?.getD 0 - x.head?.getD 0) ^ 2 +
        (y.getLast?.getD 0 - y.head?.getD 0) ^ 2)
  let curvature := 1 - straight_distance / max total_distance 1
  let jerk :=
    if raw_accelerations.length > 1 then
      (List.zipWith (fun dj d => dj / d) (npDiff raw_accelerations)
        dt.dropLast.dropLast).filter (fun j => decide (|j| < 1000000))
    else [0]
  [("move_0", .num (if velocities ≠ [] then lmean velocities else 0)),
   ("move_1", .num (if velocities ≠ [] then stdQ sq velocities else 0)),
   ("move_2", .num (if velocities ≠ [] then lmaxQ velocities else 0)),
   ("move_3", .num (if velocities ≠ [] then medianQ velocities else 0)),
   ("move_4", .num (if accelerations ≠ [] then lmean (accelerations.map abs) else 0)),
   ("move_5", .num (if accelerations ≠ [] then stdQ sq accelerations else 0)),
   ("move_6", .num (if accelerations ≠ [] then lmaxQ (accelerations.map abs) else 0)),
   ("move_7", .num curvature),
   ("move_8", .num (if angle_changes ≠ [] then lmean angle_changes else 0)),
   ("move_9", .num (if angle_changes ≠ [] then stdQ sq angle_changes else 0)),
   ("move_10", .num (if jerk ≠ [] then lmean (jerk.map abs) else 0)),
   ("move_11", .num (if jerk ≠ [] then stdQ sq jerk else 0)),
   ("move_12", .num total_distance),
   ("move_13", .num straight_distance),
   ("move_14", .num (total_distance / (max movements.length 1 : ℕ))),
   ("move_15", .num (((dt.filter (fun d => decide (d > 1 / 10))).length : ℚ) /
      (max dt.length 1 : ℕ))),
   ("move_16", .num (lmean dt)),
   ("move_17", .num (stdQ sq dt)),
   ("move_18", .num (straight_distance / max total_distance 1)),
   ("move_19", .num ((movements.length : ℚ) / window_seconds))]

/-- The `press_times` dict comprehension (the last press per button
wins). -/
def pressTimesDict (presses : List MEvent) : List (Option String × ℚ) :=
  presses.foldl
    (fun d c =>
      if (d.find? (fun p => p.1 == c.button)).isSome
      then d.map (fun p => if p.1 == c.button then (p.1, c.ts) else p)
      else d ++ [(c.button, c.ts)])
    []

/-- The release-matching loop computing click durations (each matched
press entry is deleted). -/
def clickDurScan : List MEvent → List (Option String × ℚ) → List ℚ
  | [], _ => []
  | r :: t, pt =>
    match pt.find? (fun p => p.1 == r.button) with
    | some p =>
      (if 0 < (r.ts - p.2) * 1000 ∧ (r.ts - p.2) * 1000 < 5000
       then [(r.ts - p.2) * 1000] else []) ++
        clickDurScan t (pt.filter (fun q => !(q.1 == r.button)))
    | none => clickDurScan t pt

/-- The double-click counter: consecutive timestamp-sorted presses less
than 0.5 s apart. -/
def doubleClickCount : List MEvent → ℕ
  | p1 :: p2 :: t =>
    (if p2.ts - p1.ts < 1 / 2 then 1 else 0) + doubleClickCount (p2 :: t)
  | _ => 0

/-- `_calculate_click_features` (called with a non-empty click list). -/
def mClickFeatures (sq : ℚ → ℚ) (window_seconds : ℚ) (clicks : List MEvent) :
    List (String × PyVal) :=
  let presses := clicks.filter (fun c => c.event_type == "press")
  let releases := clicks.filter (fun c => c.event_type == "release")
  let click_durations := clickDurScan releases (pressTimesDict presses)
  let left_clicks := (presses.filter (fun c => c.button == some "Left")).length
  let right_clicks := (presses.filter (fun c => c.button == some "Right")).length
  let middle_clicks := (presses.filter (fun c => c.button == some "Middle")).length
  let double_clicks := doubleClickCount (sortByKey (fun c => c.ts) presses)
  [("click_0", .num (if click_durations ≠ [] then lmean click_durations else 0)),
   ("click_1", .num (if click_durations ≠ [] then stdQ sq click_durations else 0)),
   ("click_2", .num (left_clicks : ℚ)),
   ("click_3", .num (right_clicks : ℚ)),
   ("click_4", .num (middle_clicks : ℚ)),
   ("click_5", .num ((left_clicks : ℚ) /
      (max (left_clicks + right_clicks + middle_clicks) 1 : ℕ))),
   ("click_6", .num (double_clicks : ℚ)),
   ("click_7", .num ((double_clicks : ℚ) / (max presses.length 1 : ℕ))),
   ("click_8", .num ((presses.length : ℚ) / window_seconds)),
   ("click_9", .num (if click_durations ≠ [] then medianQ click_durations else 0))]

/-- `_calculate_scroll_features` (called with a non-empty scroll list);
zero dict when every `scroll_delta` is missing. -/
def mScrollFeatures (sq : ℚ → ℚ) (window_seconds : ℚ) (scrolls : List MEvent) :
    List (String × PyVal) :=
  let deltas := scrolls.filterMap (fun s => s.scroll_delta)
  if deltas = [] then
    (List.range 8).map (fun i => ("scroll_" ++ toString i, PyVal.num 0))
  else
    let up_scrolls := deltas.filter (fun d => decide (0 < d))
    let down_scrolls := deltas.filter (fun d => decide (d < 0))
    let times := scrolls.map (fun s => s.ts)
    let scroll_intervals := if times.length > 1 then npDiff times else [0]
    [("scroll_0", .num (lmean (deltas.map abs))),
     ("scroll_1", .num (stdQ sq deltas)),
     ("scroll_2", .num (up_scrolls.length : ℚ)),
     ("scroll_3", .num (down_scrolls.length : ℚ)),
     ("scroll_4", .num ((up_scrolls.length : ℚ) / (max deltas.length 1 : ℕ))),
     ("scroll_5", .num ((scrolls.length : ℚ) / window_seconds)),
     ("scroll_6", .num (if scroll_intervals ≠ [] then lmean scroll_intervals else 0)),
     ("scroll_7", .num (stdQ sq scroll_intervals))]

/-- `MouseExtractor.extract_features`: `None` below 50 window events;
otherwise the fixed-key feature dict with zero-filled groups for absent
categories. -/
def mExtractFeatures (sq : ℚ → ℚ) (at2 : ℚ → ℚ → ℚ) (window_seconds now : ℚ)
    (events : List MEvent) : Option (List (String × PyVal)) :=
  let recent := mRecentEvents window_seconds now events
  if recent.length < 50 then none
  else
    let movements := recent.filter
      (fun e => e.event_type == "move" && e.x.isSome)
    let clicks := recent.filter
      (fun e => e.event_type == "press" || e.event_type == "release")
    let scrolls := recent.filter (fun e => e.event_type == "scroll")
    some (
      (if movements.length > 2 then
        mMovementFeatures sq at2 window_seconds movements
       else (List.range 20).map (fun i => ("move_" ++ toString i, PyVal.num 0))) ++
      (if clicks ≠ [] then mClickFeatures sq window_seconds clicks
       else (List.range 10).map (fun i => ("click_" ++ toString i, PyVal.num 0))) ++
      (if scrolls ≠ [] then mScrollFeatures sq window_seconds scrolls
       else (List.range 8).map (fun i => ("scroll_" ++ toString i, PyVal.num 0))) ++
      [("dev_mode", .boolv (recent.any (fun e => e.dev_mode)))])

end SecLyzer

namespace SecLyzer

/-! ## Key sets of the extractor feature dictionaries -/

/-- The eight statistic key names of a dwell/flight group. -/
def statKeys (grp : String) : List String :=
  [grp ++ "_mean", grp ++ "_std", grp ++ "_min", grp ++ "_max",
   grp ++ "_median", grp ++ "_q25", grp ++ "_q75", grp ++ "_range"]

/-- The 20 digraph keys (always emitted, zero-padded). -/
def digraphKeys : List String :=
  (List.range 20).map (fun i => "digraph_" ++ toString i ++ "_mean")

/-- The four error-pattern keys. -/
def errorKeys : List String :=
  ["backspace_frequency", "backspace_count", "correction_rate", "clean_typing_ratio"]

/-- The placeholder rhythm keys emitted on degenerate windows. -/
def placeholderRhythmKeys : List String :=
  (List.range 8).map (fun i => "rhythm_" ++ toString i)

/-- The eight named rhythm keys. -/
def namedRhythmKeys : List String :=
  ["rhythm_consistency", "burst_frequency", "pause_frequency", "avg_burst_speed",
   "avg_pause_duration", "rhythm_variation", "typing_speed_wpm", "rhythm_stability"]

def moveKeys : List String := (List.range 20).map (fun i => "move_" ++ toString i)

def clickKeys : List String := (List.range 10).map (fun i => "click_" ++ toString i)

def scrollKeys : List String := (List.range 8).map (fun i => "scroll_" ++ toString i)

/-- The fixed mouse feature key set. -/
def mouseKeys : List String := moveKeys ++ clickKeys ++ scrollKeys ++ ["dev_mode"]

theorem mapFst_statsBlock (sq : ℚ → ℚ) (g : String) (l : List ℚ) :
    (statsBlock sq g l).map Prod.fst = statKeys g := rfl

theorem mapFst_kDigraphFeatures (recent : List KEvent) :
    (kDigraphFeatures recent).map Prod.fst = digraphKeys := rfl

theorem mapFst_kErrorFeatures (recent : List KEvent) :
    (kErrorFeatures recent).map Prod.fst = errorKeys := rfl

theorem mapFst_kRhythmFeatures (sq : ℚ → ℚ) (recent : List KEvent) :
    (kRhythmFeatures sq recent).map Prod.fst =
      if (kPresses recent).length < 2 ∨ kIntervalPairs (kPresses recent) = []
      then placeholderRhythmKeys else namedRhythmKeys := by
  by_cases h1 : (kPresses recent).length < 2
  · rw [if_pos (Or.inl h1)]
    simp only [kRhythmFeatures]
    rw [if_pos h1]
    rfl
  · by_cases h2 : kIntervalPairs (kPresses recent) = []
    · rw [if_pos (Or.inr h2)]
      simp only [kRhythmFeatures]
      rw [if_neg h1, if_pos h2]
      rfl
    · rw [if_neg (by tauto)]
      simp only [kRhythmFeatures]
      rw [if_neg h1, if_neg h2]
      rfl

theorem mapFst_mMovementFeatures (sq : ℚ → ℚ) (at2 : ℚ → ℚ → ℚ) (w : ℚ)
    (movements : List MEvent) :
    (mMovementFeatures sq at2 w movements).map Prod.fst = moveKeys := rfl

theorem mapFst_mClickFeatures (sq : ℚ → ℚ) (w : ℚ) (clicks : List MEvent) :
    (mClickFeatures sq w clicks).map Prod.fst = clickKeys := rfl

theorem mapFst_mScrollFeatures (sq : ℚ → ℚ) (w : ℚ) (scrolls : List MEvent) :
    (mScrollFeatures sq w scrolls).map Prod.fst = scrollKeys := by
  by_cases h : scrolls.filterMap (fun s => s.scroll_delta) = []
  · simp only [mScrollFeatures]
    rw [if_pos h]
    rfl
  · simp only [mScrollFeatures]
    rw [if_neg h]
    rfl

/-- Key skeleton of the keystroke feature dict once the minimum sample
count is met. -/
theorem kExtract_keys (sq : ℚ → ℚ) (w now : ℚ) (kevents : List KEvent)
    (h : 10 ≤ (kRecentEvents w now kevents).length) :
    (kExtractFeatures sq w now kevents).map (fun f => f.map Prod.fst) =
      some (
        (if kDwellTimes (kRecentEvents w now kevents) ≠ [] then statKeys "dwell"
         else []) ++
        (if kFlightTimes (kRecentEvents w now kevents) ≠ [] then statKeys "flight"
         else []) ++
        digraphKeys ++ errorKeys ++
        (if (kPresses (kRecentEvents w now kevents)).length < 2 ∨
            kIntervalPairs (kPresses (kRecentEvents w now kevents)) = []
         then placeholderRhythmKeys else namedRhythmKeys) ++
        ["dev_mode", "total_keys"]) := by
  simp only [kExtractFeatures]
  rw [if_neg (by omega)]
  simp only [Option.map_some']
  congr 1
  rw [List.map_append, List.map_append, List.map_append, List.map_append,
    List.map_append]
  rw [apply_ite (List.map Prod.fst), apply_ite (List.map Prod.fst)]
  rw [mapFst_statsBlock, mapFst_statsBlock, mapFst_kDigraphFeatures,
    mapFst_kErrorFeatures, mapFst_kRhythmFeatures]
  rfl

/-- Key skeleton of the mouse feature dict once the minimum sample count
is met: always the full fixed key set. -/
theorem mExtract_keys (sq : ℚ → ℚ) (at2 : ℚ → ℚ → ℚ) (w now : ℚ)
    (mevents : List MEvent) (h : 50 ≤ (mRecentEvents w now mevents).length) :
    (mExtractFeatures sq at2 w now mevents).map (fun f => f.map Prod.fst) =
      some mouseKeys := by
  simp only [mExtractFeatures]
  rw [if_neg (by omega)]
  simp only [Option.map_some']
  congr 1
  rw [List.map_append, List.map_append, List.map_append]
  rw [apply_ite (List.map Prod.fst), apply_ite (List.map Prod.fst),
    apply_ite (List.map Prod.fst)]
  rw [mapFst_mMovementFeatures, mapFst_mClickFeatures, mapFst_mScrollFeatures]
  simp [Function.comp_def, moveKeys, clickKeys, scrollKeys, mouseKeys]

/-- A window of ten identical release events (no press ever observed). -/
def kEvtsCE : List KEvent :=
  List.replicate 10 { ts := 1, key := "a", event_type := "release", dev_mode := false }

theorem kRecentEvents_CE : kRecentEvents 30 10 kEvtsCE = kEvtsCE := by
  unfold kRecentEvents kEvtsCE
  rw [List.filter_replicate, if_pos]
  simp only [decide_eq_true_eq]
  norm_num

/-- A window of fifty identical coordinate-less move events. -/
def mEvtsW : List MEvent :=
  List.replicate 50
    { ts := 1, x := none, y := none, event_type := "move", button := none,
      scroll_delta := none, dev_mode := false }

theorem mRecentEvents_W : mRecentEvents 100 0 mEvtsW = mEvtsW := by
  unfold mRecentEvents mEvtsW
  rw [List.filter_replicate, if_pos]
  simp only [decide_eq_true_eq]
  norm_num

end SecLyzer

namespace SecLyzer

/-- C5: refuted on the keystroke extractor.  A 10-event window of
release-only events meets the minimum sample count and a FeatureVector is
emitted, yet the dwell and flight key groups are absent (the source adds
them only `if dwell_times:` / `if flight_times:`), and the rhythm group
appears under placeholder names `rhythm_0..7` rather than the named
rhythm keys. -/
theorem keystroke_fixed_keys_counterexample :
    (kExtractFeatures (fun q => q) 30 10 kEvtsCE).isSome = true ∧
    "dwell_mean" ∉
      ((kExtractFeatures (fun q => q) 30 10 kEvtsCE).getD []).map Prod.fst ∧
    "flight_mean" ∉
      ((kExtractFeatures (fun q => q) 30 10 kEvtsCE).getD []).map Prod.fst ∧
    "rhythm_consistency" ∉
      ((kExtractFeatures (fun q => q) 30 10 kEvtsCE).getD []).map Prod.fst := by
  have hkeys := kExtract_keys (fun q => q) 30 10 kEvtsCE
    (by rw [kRecentEvents_CE]; decide)
  rw [kRecentEvents_CE] at hkeys
  have hdw : kDwellTimes kEvtsCE = [] := by decide
  have hfl : kFlightTimes kEvtsCE = [] := by decide
  have hpr : (kPresses kEvtsCE).length < 2 := by decide
  rw [if_neg (by simp [hdw]), if_neg (by simp [hfl]),
    if_pos (Or.inl hpr)] at hkeys
  rcases hx : kExtractFeatures (fun q => q) 30 10 kEvtsCE with _ | fs
  · rw [hx] at hkeys
    simp at hkeys
  · rw [hx] at hkeys
    simp only [Option.map_some', Option.some_inj] at hkeys
    refine ⟨rfl, ?_, ?_, ?_⟩ <;>
      · simp only [Option.getD_some]
        rw [hkeys]
        decide

/-- C5 amended: neither extractor emits a FeatureVector below its minimum
sample count (10 keystroke / 50 pointer).  Once met, the mouse extractor
always emits the full fixed key set (absent categories zero-filled under
the same keys); the keystroke extractor always emits the digraph
(zero-padded to 20), error, rhythm, dev_mode and total_keys keys, but
omits the dwell (resp. flight) group entirely when the window has no
valid press–release (resp. release→press) pair, and emits the rhythm
group under placeholder names when fewer than two presses or no valid
inter-key interval exist. -/
theorem extractor_min_samples_and_keys (sq : ℚ → ℚ) (at2 : ℚ → ℚ → ℚ)
    (w now : ℚ) (kevents : List KEvent) (mevents : List MEvent) :
    ((kRecentEvents w now kevents).length < 10 →
      kExtractFeatures sq w now kevents = none) ∧
    (10 ≤ (kRecentEvents w now kevents).length →
      (kExtractFeatures sq w now kevents).map (fun f => f.map Prod.fst) =
        some (
          (if kDwellTimes (kRecentEvents w now kevents) ≠ [] then statKeys "dwell"
           else []) ++
          (if kFlightTimes (kRecentEvents w now kevents) ≠ [] then statKeys "flight"
           else []) ++
          digraphKeys ++ errorKeys ++
          (if (kPresses (kRecentEvents w now kevents)).length < 2 ∨
              kIntervalPairs (kPresses (kRecentEvents w now kevents)) = []
           then placeholderRhythmKeys else namedRhythmKeys) ++
          ["dev_mode", "total_keys"])) ∧
    ((mRecentEvents w now mevents).length < 50 →
      mExtractFeatures sq at2 w now mevents = none) ∧
    (50 ≤ (mRecentEvents w now mevents).length →
      (mExtractFeatures sq at2 w now mevents).map (fun f => f.map Prod.fst) =
        some mouseKeys) := by
  refine ⟨?_, kExtract_keys sq w now kevents, ?_,
    mExtract_keys sq at2 w now mevents⟩
  · intro h
    simp only [kExtractFeatures]
    rw [if_pos h]
  · intro h
    simp only [mExtractFeatures]
    rw [if_pos h]

/-- Witness for the amended C5: the empty window emits nothing for either
modality; the ten-release window emits the keystroke key skeleton; the
fifty-move window emits the full fixed mouse key set. -/
theorem extractor_min_samples_and_keys_witness :
    (((kRecentEvents 30 10 ([] : List KEvent)).length < 10) ∧
      kExtractFeatures (fun q => q) 30 10 [] = none) ∧
    ((10 ≤ (kRecentEvents 30 10 kEvtsCE).length) ∧
      (kExtractFeatures (fun q => q) 30 10 kEvtsCE).map (fun f => f.map Prod.fst) =
        some (
          (if kDwellTimes (kRecentEvents 30 10 kEvtsCE) ≠ [] then statKeys "dwell"
           else []) ++
          (if kFlightTimes (kRecentEvents 30 10 kEvtsCE) ≠ [] then statKeys "flight"
           else []) ++
          digraphKeys ++ errorKeys ++
          (if (kPresses (kRecentEvents 30 10 kEvtsCE)).length < 2 ∨
              kIntervalPairs (kPresses (kRecentEvents 30 10 kEvtsCE)) = []
           then placeholderRhythmKeys else namedRhythmKeys) ++
          ["dev_mode", "total_keys"])) ∧
    (((mRecentEvents 100 0 ([] : List MEvent)).length < 50) ∧
      mExtractFeatures (fun q => q) (fun a _ => a) 100 0 [] = none) ∧
    ((50 ≤ (mRecentEvents 100 0 mEvtsW).length) ∧
      (mExtractFeatures (fun q => q) (fun a _ => a) 100 0 mEvtsW).map
        (fun f => f.map Prod.fst) = some mouseKeys) :=
  ⟨⟨by decide,
    (extractor_min_samples_and_keys (fun q => q) (fun a _ => a) 30 10 [] []).1
      (by decide)⟩,
   ⟨by rw [kRecentEvents_CE]; decide,
    (extractor_min_samples_and_keys (fun q => q) (fun a _ => a) 30 10 kEvtsCE []).2.1
      (by rw [kRecentEvents_CE]; decide)⟩,
   ⟨by decide,
    (extractor_min_samples_and_keys (fun q => q) (fun a _ => a) 100 0 [] []).2.2.1
      (by decide)⟩,
   ⟨by rw [mRecentEvents_W]; decide,
    (extractor_min_samples_and_keys (fun q => q) (fun a _ => a) 100 0 [] mEvtsW).2.2.2
      (by rw [mRecentEvents_W]; decide)⟩⟩

end SecLyzer
